import Mathlib

/-!
Shallow embedding of the lottery front-end's ticket-sale workflow.

The definitions below are translated from the TypeScript sources:
`venta-boleta.component.ts` (selection state, `esActivo`, `ordenarPorEstado`,
`vender`, `venderUnico`, `venderMultiple`), `ventas.service.ts`
(`getHistorialPorCliente`), and `clientes.service.ts` (`existeCorreo`).

Modelling conventions:
* Dates are the integer millisecond timestamps the component actually
  compares (`new Date(...).getTime()`); the start of the current day is
  passed in as a parameter `inicioHoy`.
* The backend is a pure function from the request payload to a response;
  an HTTP error carries its status code (409 is the conflict class).
* The mutable array `this.billetes` becomes an explicit `List Billete`
  threaded through each operation; `findIndex` + in-place assignment of
  the found element becomes `replaceFirst` (replace the first element
  matching the predicate, no-op when absent, exactly like the guarded
  `if (idx >= 0)` assignment).
* The JS record `previos[id]` becomes an association list with the most
  recent write at the head, so lookup returns the latest write.
* The JS `Set` of selected ids becomes a duplicate-free `List Nat` kept
  in insertion order (`Array.from` iterates a `Set` in insertion order).
-/

namespace Loteria

/-- Ticket state, from `models/billete.ts`: `'DISPONIBLE' | 'VENDIDO'`. -/
inductive EstadoBillete where
  | DISPONIBLE
  | VENDIDO
  deriving DecidableEq

/-- Ticket, from `models/billete.ts` (numeric fields after
`normalizarBillete`'s `Number(...)` coercions). -/
structure Billete where
  id : Nat
  numero : Int
  precio : Int
  estado : EstadoBillete
  sorteoId : Nat
  clienteId : Option Nat
  deriving DecidableEq

/-- Raffle, from `models/sorteo.ts`; `fechaSorteo` is the parsed timestamp
`new Date(s.fechaSorteo).getTime()`.  The `activo` flag is not declared in
the interface but is read dynamically (`(s as any).activo`), hence
`Option Bool`. -/
structure Sorteo where
  id : Nat
  nombre : String
  fechaSorteo : Int
  totalBilletes : Nat
  activo : Option Bool
  deriving DecidableEq

/-- Customer, from `models/cliente.ts`. -/
structure Cliente where
  id : Nat
  nombre : String
  correo : String
  deriving DecidableEq

/-- `esActivo` from `venta-boleta.component.ts`: the raffle date has not
passed (compared against 00:00 of the current day) and the raffle is not
explicitly flagged inactive (`activo === undefined ? true : Boolean(activo)`). -/
def esActivo (inicioHoy : Int) (s : Sorteo) : Bool :=
  let noPaso := decide (inicioHoy ≤ s.fechaSorteo)
  let flagActivo :=
    match s.activo with
    | none => true
    | some b => b
  noPaso && flagActivo

/-- The sort comparator `(a, b) => a.numero - b.numero` used on both
partitions in `ordenarPorEstado` (ascending by ticket number). -/
def leNumero (a b : Billete) : Bool := decide (a.numero ≤ b.numero)

/-- `ordenarPorEstado` from `venta-boleta.component.ts`: filter the
DISPONIBLE tickets and sort them ascending by `numero`, filter the
VENDIDO tickets and sort them ascending by `numero`, and concatenate
DISPONIBLE before VENDIDO. -/
def ordenarPorEstado (bs : List Billete) : List Billete :=
  let disponibles :=
    (bs.filter (fun b => b.estado == EstadoBillete.DISPONIBLE)).mergeSort leNumero
  let vendidos :=
    (bs.filter (fun b => b.estado == EstadoBillete.VENDIDO)).mergeSort leNumero
  disponibles ++ vendidos

/-- `toggleSeleccion` from `venta-boleta.component.ts`: return unchanged
while a sale is in flight or when the ticket is not DISPONIBLE; otherwise
delete the id if present, else add it. -/
def toggleSeleccion (vendiendo : Bool) (b : Billete) (sel : List Nat) : List Nat :=
  if vendiendo || !(b.estado == EstadoBillete.DISPONIBLE) then sel
  else if b.id ∈ sel then sel.filter (fun x => x != b.id)
  else sel ++ [b.id]

/-- Observable outcome of `seleccionarBillete`: the single-selection
fields, the multi-selection set, the status message, and whether the
"No disponible" warning dialog was shown. -/
structure SelOutcome where
  billeteSeleccionado : Option Billete
  formBilleteId : Option Nat
  seleccionMultipleIds : List Nat
  ventaMsg : String
  warnNoDisponible : Bool
  deriving DecidableEq

/-- `seleccionarBillete` from `venta-boleta.component.ts`: no-op while a
sale is in flight; warn and change nothing when the ticket is not
DISPONIBLE; in single mode replace the selection and clear the message;
in multiple mode delegate to `toggleSeleccion`. -/
def seleccionarBillete (vendiendo ventaMultiple : Bool) (b : Billete)
    (prevSel : Option Billete) (prevForm : Option Nat) (prevMsg : String)
    (prevIds : List Nat) : SelOutcome :=
  if vendiendo then ⟨prevSel, prevForm, prevIds, prevMsg, false⟩
  else if !(b.estado == EstadoBillete.DISPONIBLE) then
    ⟨prevSel, prevForm, prevIds, prevMsg, true⟩
  else if !ventaMultiple then ⟨some b, some b.id, prevIds, "", false⟩
  else ⟨prevSel, prevForm, toggleSeleccion vendiendo b prevIds, prevMsg, false⟩

/-- Normalized history payload, from `ventas.service.ts`. -/
structure HistorialResponse where
  cliente : Cliente
  billetes : List Billete
  deriving DecidableEq

/-- The two successful response shapes the backend may return for the
history query: the recommended object, or a bare ticket array. -/
inductive HistorialRaw where
  | obj (h : HistorialResponse)
  | arr (bs : List Billete)
  deriving DecidableEq

/-- An HTTP error response (status code and backend message). -/
structure HttpError where
  status : Nat
  message : String
  deriving DecidableEq

/-- `getHistorialPorCliente` from `ventas.service.ts`: a bare array is
normalized to a placeholder customer `{id: 0, nombre: '', correo}` with
that array; an object passes through; an HTTP error propagates (there is
no `catchError` in the pipe). -/
def getHistorialPorCliente (correo : String) (resp : Except HttpError HistorialRaw) :
    Except HttpError HistorialResponse :=
  match resp with
  | .error e => .error e
  | .ok (.arr bs) =>
      .ok { cliente := { id := 0, nombre := "", correo := correo }, billetes := bs }
  | .ok (.obj h) => .ok h

/-- Backend answer for the email-existence endpoint. -/
inductive ExisteResp where
  | ok (existe : Bool)
  | httpError (status : Nat)
  deriving DecidableEq

/-- Outcome of `existeCorreo`: whether an HTTP request was issued, and the
boolean the observable yields. -/
structure ExisteOutcome where
  requested : Bool
  result : Bool
  deriving DecidableEq

/-- `existeCorreo` from `clientes.service.ts`: an empty email short-circuits
to `of(false)` with no request; otherwise the response's `existe` field is
coerced to a boolean and every error is caught as `false`. -/
def existeCorreo (correo : String) (backend : ExisteResp) : ExisteOutcome :=
  if correo = "" then ⟨false, false⟩
  else
    match backend with
    | .ok e => ⟨true, e⟩
    | .httpError _ => ⟨true, false⟩

/-! ### Raffle activity (C2) -/

/-- C2: for every raffle `r`, `esActivo` returns true iff `r`'s scheduled
date is at or after the start of the current day and `r`'s active flag is
not explicitly false (an absent flag counts as active). -/
theorem esActivo_iff (inicioHoy : Int) (s : Sorteo) :
    esActivo inicioHoy s = true ↔ inicioHoy ≤ s.fechaSorteo ∧ s.activo ≠ some false := by
  unfold esActivo
  cases h : s.activo with
  | none => simp
  | some b => cases b <;> simp

/-! ### History normalization (C8) -/

/-- C8: when the backend answers the history query with a bare ticket
array (in particular an empty one), `getHistorialPorCliente` yields the
normalized placeholder `{cliente := {id := 0, nombre := "", correo}, billetes}`
rather than an error, while an HTTP error response propagates as an
error, keeping the empty-customer placeholder distinct from a true
not-found. -/
theorem getHistorialPorCliente_normaliza (correo : String) (bs : List Billete)
    (e : HttpError) :
    getHistorialPorCliente correo (.ok (.arr bs)) =
      .ok { cliente := { id := 0, nombre := "", correo := correo }, billetes := bs } ∧
    getHistorialPorCliente correo (.ok (.arr [])) =
      .ok { cliente := { id := 0, nombre := "", correo := correo }, billetes := [] } ∧
    getHistorialPorCliente correo (.error e) = .error e :=
  ⟨rfl, rfl, rfl⟩

/-! ### Email existence check (C10) -/

/-- C10: `existeCorreo` never propagates an error: the empty string yields
`false` with no HTTP request issued, every HTTP error maps to `false`, and
the result is `true` exactly when a request was made and the backend
answered with a true `existe` field. -/
theorem existeCorreo_spec (correo : String) (backend : ExisteResp) :
    existeCorreo "" backend = ⟨false, false⟩ ∧
    (∀ status, (existeCorreo correo (.httpError status)).result = false) ∧
    ((existeCorreo correo backend).result = true ↔
      correo ≠ "" ∧ backend = .ok true) := by
  refine ⟨rfl, ?_, ?_⟩
  · intro status
    unfold existeCorreo
    by_cases h : correo = "" <;> simp [h]
  · unfold existeCorreo
    by_cases h : correo = ""
    · simp [h]
    · cases backend with
      | ok e => cases e <;> simp [h]
      | httpError status => simp [h]

/-! ### Multi-selection toggle (C5) -/

/-- C5 counterexample: a VENDIDO ticket whose id is already selected is
NOT removed by `toggleSeleccion` (the availability guard returns first),
contradicting the claim that toggling "removes the id if it is present". -/
theorem toggleSeleccion_vendido_cex :
    (⟨7, 3, 100, EstadoBillete.VENDIDO, 1, none⟩ : Billete).estado = EstadoBillete.VENDIDO ∧
    (7 : Nat) ∈ ([7] : List Nat) ∧
    (7 : Nat) ∈ toggleSeleccion false (⟨7, 3, 100, EstadoBillete.VENDIDO, 1, none⟩ : Billete) [7] ∧
    ¬ (∀ (b : Billete) (sel : List Nat), b.id ∈ sel →
        b.id ∉ toggleSeleccion false b sel) := by
  refine ⟨by decide, by decide, by decide, ?_⟩
  intro hall
  exact hall (⟨7, 3, 100, EstadoBillete.VENDIDO, 1, none⟩ : Billete) [7]
    (by decide) (by decide)

/-- C5 amended: toggling adds the id if absent and the ticket is
DISPONIBLE, removes the id if present and the ticket is DISPONIBLE, and
is a no-op on every non-DISPONIBLE ticket (selected or not) as well as
while a sale is in flight. -/
theorem toggleSeleccion_amended (v : Bool) (b : Billete) (sel : List Nat) :
    (v = false → b.estado = EstadoBillete.DISPONIBLE → b.id ∉ sel →
      toggleSeleccion v b sel = sel ++ [b.id]) ∧
    (v = false → b.estado = EstadoBillete.DISPONIBLE → b.id ∈ sel →
      toggleSeleccion v b sel = sel.filter (fun x => x != b.id)) ∧
    (b.estado ≠ EstadoBillete.DISPONIBLE → toggleSeleccion v b sel = sel) ∧
    (v = true → toggleSeleccion v b sel = sel) := by
  refine ⟨?_, ?_, ?_, ?_⟩
  · intro hv he hmem
    simp [toggleSeleccion, hv, he, hmem]
  · intro hv he hmem
    simp [toggleSeleccion, hv, he, hmem]
  · intro he
    have : (b.estado == EstadoBillete.DISPONIBLE) = false := by
      simpa using he
    simp [toggleSeleccion, this]
  · intro hv
    simp [toggleSeleccion, hv]

/-- Witness for the amended C5 theorem at concrete inputs: each branch is
exercised on explicit tickets and selection lists. -/
theorem toggleSeleccion_amended_witness :
    toggleSeleccion false (⟨7, 3, 100, EstadoBillete.DISPONIBLE, 1, none⟩ : Billete) [9] =
      [9] ++ [7] ∧
    toggleSeleccion false (⟨7, 3, 100, EstadoBillete.DISPONIBLE, 1, none⟩ : Billete) [9, 7] =
      List.filter (fun x => x != 7) [9, 7] ∧
    toggleSeleccion false (⟨7, 3, 100, EstadoBillete.VENDIDO, 1, none⟩ : Billete) [9, 7] =
      [9, 7] ∧
    toggleSeleccion true (⟨7, 3, 100, EstadoBillete.DISPONIBLE, 1, none⟩ : Billete) [9, 7] =
      [9, 7] := by
  refine ⟨?_, ?_, ?_, ?_⟩
  · exact (toggleSeleccion_amended false _ [9]).1 rfl rfl (by decide)
  · exact (toggleSeleccion_amended false _ [9, 7]).2.1 rfl rfl (by decide)
  · exact (toggleSeleccion_amended false _ [9, 7]).2.2.1 (by decide)
  · exact (toggleSeleccion_amended true _ [9, 7]).2.2.2 rfl

/-! ### Single-mode selection of a sold ticket (C6) -/

/-- C6 counterexample: while a sale is in flight (`vendiendo = true`),
selecting a VENDIDO ticket in single mode does NOT take the
"No disponible" warning path (the method returns before the guard),
contradicting the claim that the warning path is always taken. -/
theorem seleccionarBillete_vendido_cex :
    (⟨7, 3, 100, EstadoBillete.VENDIDO, 1, none⟩ : Billete).estado = EstadoBillete.VENDIDO ∧
    (seleccionarBillete true false (⟨7, 3, 100, EstadoBillete.VENDIDO, 1, none⟩ : Billete)
      none none "" []).warnNoDisponible = false ∧
    ¬ (∀ (vendiendo ventaMultiple : Bool) (b : Billete) (prevSel : Option Billete)
        (prevForm : Option Nat) (prevMsg : String) (prevIds : List Nat),
        b.estado = EstadoBillete.VENDIDO →
        (seleccionarBillete vendiendo ventaMultiple b prevSel prevForm prevMsg
          prevIds).warnNoDisponible = true) := by
  refine ⟨by decide, by decide, ?_⟩
  intro hall
  have h := hall true false (⟨7, 3, 100, EstadoBillete.VENDIDO, 1, none⟩ : Billete)
    none none "" [] rfl
  exact absurd h (by decide)

/-- C6 amended: selecting a VENDIDO ticket never changes the current
selection (neither `billeteSeleccionado` nor the form's `billeteId`, nor
the multi-selection set); when no sale is in flight it always takes the
"not available" warning path, while mid-sale it is a silent no-op. -/
theorem seleccionarBillete_vendido (vendiendo ventaMultiple : Bool) (b : Billete)
    (prevSel : Option Billete) (prevForm : Option Nat) (prevMsg : String)
    (prevIds : List Nat) (h : b.estado = EstadoBillete.VENDIDO) :
    (seleccionarBillete vendiendo ventaMultiple b prevSel prevForm prevMsg
        prevIds).billeteSeleccionado = prevSel ∧
    (seleccionarBillete vendiendo ventaMultiple b prevSel prevForm prevMsg
        prevIds).formBilleteId = prevForm ∧
    (seleccionarBillete vendiendo ventaMultiple b prevSel prevForm prevMsg
        prevIds).seleccionMultipleIds = prevIds ∧
    (vendiendo = false →
      (seleccionarBillete vendiendo ventaMultiple b prevSel prevForm prevMsg
        prevIds).warnNoDisponible = true) ∧
    (vendiendo = true →
      (seleccionarBillete vendiendo ventaMultiple b prevSel prevForm prevMsg
        prevIds).warnNoDisponible = false) := by
  cases vendiendo <;> simp [seleccionarBillete, h]

/-- Witness for the amended C6 theorem: a concrete VENDIDO ticket selected
in single mode with no sale in flight leaves the selection untouched and
shows the warning. -/
theorem seleccionarBillete_vendido_witness :
    (seleccionarBillete false false (⟨7, 3, 100, EstadoBillete.VENDIDO, 1, none⟩ : Billete)
        none (some 4) "m" [9]).billeteSeleccionado = none ∧
    (seleccionarBillete false false (⟨7, 3, 100, EstadoBillete.VENDIDO, 1, none⟩ : Billete)
        none (some 4) "m" [9]).formBilleteId = some 4 ∧
    (seleccionarBillete false false (⟨7, 3, 100, EstadoBillete.VENDIDO, 1, none⟩ : Billete)
        none (some 4) "m" [9]).seleccionMultipleIds = [9] ∧
    (seleccionarBillete false false (⟨7, 3, 100, EstadoBillete.VENDIDO, 1, none⟩ : Billete)
        none (some 4) "m" [9]).warnNoDisponible = true := by
  have h := seleccionarBillete_vendido false false
    (⟨7, 3, 100, EstadoBillete.VENDIDO, 1, none⟩ : Billete) none (some 4) "m" [9] rfl
  exact ⟨h.1, h.2.1, h.2.2.1, h.2.2.2.1 rfl⟩

/-! ### Display ordering (C7) -/

theorem leNumero_trans : ∀ (a b c : Billete), leNumero a b → leNumero b c → leNumero a c := by
  intro a b c hab hbc
  simp only [leNumero, decide_eq_true_eq] at hab hbc ⊢
  omega

theorem leNumero_total : ∀ (a b : Billete), leNumero a b || leNumero b a := by
  intro a b
  simp only [leNumero, Bool.or_eq_true, decide_eq_true_eq]
  omega

theorem filter_vendido_eq_not_disponible (bs : List Billete) :
    bs.filter (fun b => b.estado == EstadoBillete.VENDIDO) =
      bs.filter (fun x => !(x.estado == EstadoBillete.DISPONIBLE)) := by
  apply List.filter_congr
  intro x _
  cases hx : x.estado <;> simp

theorem ordenarPorEstado_perm (bs : List Billete) : (ordenarPorEstado bs).Perm bs := by
  unfold ordenarPorEstado
  refine ((List.mergeSort_perm _ leNumero).append (List.mergeSort_perm _ leNumero)).trans ?_
  rw [filter_vendido_eq_not_disponible]
  exact List.filter_append_perm _ bs

/-- Rank used to express the AVAILABLE-before-SOLD display order. -/
def estadoKey : EstadoBillete → Nat
  | .DISPONIBLE => 0
  | .VENDIDO => 1

/-- Lexicographic (state, number) order on tickets: strictly smaller state
rank, or equal states and ascending ticket number. -/
def ordenEstadoNumero (a b : Billete) : Prop :=
  estadoKey a.estado < estadoKey b.estado ∨ (a.estado = b.estado ∧ a.numero ≤ b.numero)

theorem pairwise_mergeSort_filter (e : EstadoBillete) (bs : List Billete) :
    ((bs.filter (fun b => b.estado == e)).mergeSort leNumero).Pairwise ordenEstadoNumero := by
  have hs := @List.sorted_mergeSort Billete leNumero leNumero_trans leNumero_total
    (bs.filter (fun b => b.estado == e))
  refine hs.imp_of_mem ?_
  intro a b ha hb hab
  have ha' : a.estado = e := by
    have := (List.mem_filter.mp (List.mem_mergeSort.mp ha)).2
    simpa using this
  have hb' : b.estado = e := by
    have := (List.mem_filter.mp (List.mem_mergeSort.mp hb)).2
    simpa using this
  refine Or.inr ⟨ha'.trans hb'.symm, ?_⟩
  simpa [leNumero] using hab

/-- C7: for every ticket list, `ordenarPorEstado` produces a permutation
of the input that is sorted by (state, number): every DISPONIBLE ticket
precedes every VENDIDO ticket, and within each group numbers ascend. -/
theorem ordenarPorEstado_spec (bs : List Billete) :
    (ordenarPorEstado bs).Perm bs ∧ (ordenarPorEstado bs).Pairwise ordenEstadoNumero := by
  refine ⟨ordenarPorEstado_perm bs, ?_⟩
  unfold ordenarPorEstado
  rw [List.pairwise_append]
  refine ⟨pairwise_mergeSort_filter _ bs, pairwise_mergeSort_filter _ bs, ?_⟩
  intro a ha b hb
  have ha' : a.estado = EstadoBillete.DISPONIBLE := by
    have := (List.mem_filter.mp (List.mem_mergeSort.mp ha)).2
    simpa using this
  have hb' : b.estado = EstadoBillete.VENDIDO := by
    have := (List.mem_filter.mp (List.mem_mergeSort.mp hb)).2
    simpa using this
  exact Or.inl (by rw [ha', hb']; decide)

/-! ### Sale executor: data and primitive operations -/

/-- Sale request body, from `ventas.service.ts`. -/
structure VentaRequest where
  sorteoId : Nat
  billeteId : Nat
  clienteId : Nat
  deriving DecidableEq

/-- Backend answer to `POST /ventas`: the updated ticket on success, or an
HTTP error with its status (409 is the conflict class). -/
inductive VentaResult where
  | ok (billete : Billete)
  | httpError (status : Nat)
  deriving DecidableEq

/-- Whether a backend answer is a success. -/
def esOk : VentaResult → Bool
  | .ok _ => true
  | .httpError _ => false

/-- The optimistic local transition `{...b, estado: 'VENDIDO'}`. -/
def setVendido (b : Billete) : Billete := { b with estado := EstadoBillete.VENDIDO }

/-- `this.billetes.find(x => x.id === i)`. -/
def getId (bs : List Billete) (i : Nat) : Option Billete :=
  bs.find? (fun x => x.id == i)

/-- `const idx = findIndex(p); if (idx >= 0) billetes[idx] = f(billetes[idx])`:
replace the first element matching `p`, leaving the list unchanged when no
element matches. -/
def replaceFirst (p : Billete → Bool) (f : Billete → Billete) : List Billete → List Billete
  | [] => []
  | b :: bs => if p b then f b :: bs else b :: replaceFirst p f bs

/-- The ids of a ticket list, in order. -/
def idsOf (bs : List Billete) : List Nat := bs.map (fun b => b.id)

/-- Lookup in the `previos` record (`previos[id]`); entries are prepended,
so the first match is the most recent write, as in a JS object. -/
def lookupPrevio (previos : List (Nat × Billete)) (i : Nat) : Option Billete :=
  (previos.find? (fun e => e.1 == i)).map (fun e => e.2)

/-- One iteration of the optimistic phase of `venderMultiple`: if the
ticket is found, record a copy in `previos` and mark the list entry
VENDIDO; otherwise do nothing. -/
def optimisticStep (acc : List Billete × List (Nat × Billete)) (i : Nat) :
    List Billete × List (Nat × Billete) :=
  match getId acc.1 i with
  | none => acc
  | some b => (replaceFirst (fun x => x.id == i) setVendido acc.1, (i, b) :: acc.2)

/-- `const b = billetes.find(x => x.id === i); b ? Number(b.numero) : i`. -/
def numeroDe (bs : List Billete) (i : Nat) : Int :=
  match getId bs i with
  | some b => b.numero
  | none => (i : Int)

/-- The revert in `venderMultiple`'s error callback: restore the snapshot
at the ticket's current index, only when both the index and the snapshot
exist. -/
def revertirBillete (previos : List (Nat × Billete)) (bs : List Billete) (i : Nat) :
    List Billete :=
  match lookupPrevio previos i with
  | some prev => replaceFirst (fun x => x.id == i) (fun _ => prev) bs
  | none => bs

/-- Accumulated state of the sequential sale loop of `venderMultiple`. -/
structure MultiState where
  billetes : List Billete
  exitos : List Int
  fallos : List Int
  requests : List VentaRequest
  deriving DecidableEq

/-- One iteration of the sequential sale loop: issue the request; on
success push the ticket's number to `exitos`; on any error revert that
ticket and push its (reverted) number to `fallos`. -/
def saleStep (backend : VentaRequest → VentaResult) (sorteoId clienteId : Nat)
    (previos : List (Nat × Billete)) (st : MultiState) (i : Nat) : MultiState :=
  let payload : VentaRequest := ⟨sorteoId, i, clienteId⟩
  match backend payload with
  | .ok _ =>
      { st with exitos := st.exitos ++ [numeroDe st.billetes i],
                requests := st.requests ++ [payload] }
  | .httpError _ =>
      let bs := revertirBillete previos st.billetes i
      { billetes := bs, exitos := st.exitos, fallos := st.fallos ++ [numeroDe bs i],
        requests := st.requests ++ [payload] }

/-- `venderMultiple` from `venta-boleta.component.ts`: return immediately
on an empty selection or a declined confirmation; otherwise apply the
optimistic VENDIDO transition (recording a per-ticket snapshot), re-sort,
run the sale loop strictly sequentially over the ids in selection order,
and re-sort the final list. -/
def venderMultiple (confirmado : Bool) (backend : VentaRequest → VentaResult)
    (sorteoId clienteId : Nat) (ids : List Nat) (bs : List Billete) : MultiState :=
  if ids.isEmpty then ⟨bs, [], [], []⟩
  else if !confirmado then ⟨bs, [], [], []⟩
  else
    let opt := ids.foldl optimisticStep (bs, [])
    let st := ids.foldl (saleStep backend sorteoId clienteId opt.2)
      ⟨ordenarPorEstado opt.1, [], [], []⟩
    { st with billetes := ordenarPorEstado st.billetes }

/-- The final report category of `venderMultiple` (`if (fallos.length === 0)
... else if (exitos.length === 0) ... else ...`). -/
inductive Reporte where
  | completa
  | ninguno
  | parcial
  deriving DecidableEq

/-- Which of the three final dialogs `venderMultiple` shows. -/
def reporteFinal (st : MultiState) : Reporte :=
  if st.fallos.length = 0 then .completa
  else if st.exitos.length = 0 then .ninguno
  else .parcial

/-- `normalizarBillete`: `Number(...)` coercions on fields that are
already numeric in this model. -/
def normalizarBillete (b : Billete) : Billete :=
  { b with numero := b.numero, precio := b.precio }

/-- Observable outcome of `venderUnico`: the ticket list, the requests
issued, and the resulting status message. -/
structure UnicoResult where
  billetes : List Billete
  requests : List VentaRequest
  ventaMsg : String
  deriving DecidableEq

/-- `venderUnico` from `venta-boleta.component.ts`: capture the index and
a snapshot, apply the optimistic transition and re-sort when the index
exists, issue the single request, then write back the server's ticket (on
success) or the snapshot (on failure) at the captured index and re-sort.
Note the captured index is NOT recomputed after the optimistic re-sort. -/
def venderUnico (backend : VentaRequest → VentaResult) (sorteoId clienteId : Nat)
    (b : Billete) (bs : List Billete) : UnicoResult :=
  let payload : VentaRequest := ⟨sorteoId, b.id, clienteId⟩
  let idx? := bs.findIdx? (fun x => x.id == b.id)
  let previo : Option Billete :=
    match idx? with
    | some idx => bs[idx]?
    | none => none
  let bs1 :=
    match idx? with
    | some idx =>
        match bs[idx]? with
        | some cur => ordenarPorEstado (bs.set idx (setVendido cur))
        | none => bs
    | none => bs
  match backend payload with
  | .ok res =>
      let bs2 :=
        match idx? with
        | some idx => bs1.set idx (normalizarBillete res)
        | none => bs1
      ⟨ordenarPorEstado bs2, [payload], "Vendido correctamente"⟩
  | .httpError status =>
      let bs2 :=
        match idx?, previo with
        | some idx, some prev => bs1.set idx prev
        | _, _ => bs1
      ⟨ordenarPorEstado bs2, [payload],
        if status == 409 then "Ese billete ya fue comprado por otra persona."
        else "Error al vender"⟩

/-- JS falsiness of `this.form.value.clienteId` (`number | null`): null or 0. -/
def esFalsy : Option Nat → Bool
  | none => true
  | some n => n == 0

/-- Observable outcome of `vender`: the warning dialog title when a local
precondition failed (`none` when the flow proceeded), and the resulting
ticket list, issued requests and success/failure accounting. -/
structure VenderOutcome where
  aviso : Option String
  billetes : List Billete
  requests : List VentaRequest
  exitos : List Int
  fallos : List Int
  deriving DecidableEq

/-- `vender` from `venta-boleta.component.ts`: the four local precondition
checks in source order (no raffle, no customer, raffle no longer active,
no ticket), then dispatch to the single or multiple path; confirmation
dialogs are the two `confirma*` parameters. -/
def vender (inicioHoy : Int) (seleccionado : Option Sorteo) (clienteId : Option Nat)
    (ventaMultiple : Bool) (seleccionMultipleIds : List Nat)
    (billeteSeleccionado : Option Billete) (confirmaUnica confirmaMultiple : Bool)
    (backend : VentaRequest → VentaResult) (bs : List Billete) : VenderOutcome :=
  match seleccionado with
  | none => ⟨some "Selecciona un sorteo", bs, [], [], []⟩
  | some s =>
    if esFalsy clienteId then ⟨some "Selecciona un cliente", bs, [], [], []⟩
    else if !esActivo inicioHoy s then ⟨some "Sorteo inactivo", bs, [], [], []⟩
    else
      let cid := clienteId.getD 0
      let esMultiple := ventaMultiple && !seleccionMultipleIds.isEmpty
      if !esMultiple then
        match billeteSeleccionado with
        | none => ⟨some "Selecciona un billete", bs, [], [], []⟩
        | some b =>
          if !confirmaUnica then ⟨none, bs, [], [], []⟩
          else
            let r := venderUnico backend s.id cid b bs
            ⟨none, r.billetes, r.requests, [], []⟩
      else
        let st := venderMultiple confirmaMultiple backend s.id cid seleccionMultipleIds bs
        ⟨none, st.billetes, st.requests, st.exitos, st.fallos⟩

/-! ### Lemmas about `getId`, `replaceFirst` and the optimistic phase -/

theorem getId_cons (b : Billete) (bs : List Billete) (i : Nat) :
    getId (b :: bs) i = if b.id = i then some b else getId bs i := by
  by_cases h : b.id = i <;> simp [getId, List.find?_cons, h]

theorem getId_replaceFirst (f : Billete → Billete) (j : Nat)
    (hf : ∀ x, x.id = j → (f x).id = j) (bs : List Billete) (i : Nat) :
    getId (replaceFirst (fun x => x.id == j) f bs) i =
      if i = j then (getId bs j).map f else getId bs i := by
  induction bs with
  | nil => by_cases hij : i = j <;> simp [replaceFirst, getId, hij]
  | cons b bs ih =>
      by_cases hb : b.id = j
      · have h1 : replaceFirst (fun x => x.id == j) f (b :: bs) = f b :: bs := by
          simp [replaceFirst, hb]
        have hfb : (f b).id = j := hf b hb
        by_cases hij : i = j
        · subst hij
          rw [h1, getId_cons, getId_cons]
          simp [hfb, hb]
        · rw [h1, getId_cons, getId_cons, getId_cons]
          have h2 : ¬ (f b).id = i := by rw [hfb]; exact fun hcon => hij hcon.symm
          have h3 : ¬ b.id = i := by rw [hb]; exact fun hcon => hij hcon.symm
          simp [h2, h3, hij]
      · have h1 : replaceFirst (fun x => x.id == j) f (b :: bs) =
            b :: replaceFirst (fun x => x.id == j) f bs := by
          simp [replaceFirst, hb]
        rw [h1, getId_cons, ih, getId_cons, getId_cons]
        by_cases hij : i = j
        · subst hij
          simp [hb]
        · by_cases hbi : b.id = i <;> simp [hij, hbi]

theorem idsOf_replaceFirst (f : Billete → Billete) (j : Nat)
    (hf : ∀ x, x.id = j → (f x).id = j) (bs : List Billete) :
    idsOf (replaceFirst (fun x => x.id == j) f bs) = idsOf bs := by
  induction bs with
  | nil => rfl
  | cons b bs ih =>
      by_cases hb : b.id = j
      · have hfb : (f b).id = b.id := by rw [hf b hb, hb]
        simp [replaceFirst, hb, idsOf, hfb]
      · have h1 : replaceFirst (fun x => x.id == j) f (b :: bs) =
            b :: replaceFirst (fun x => x.id == j) f bs := by
          simp [replaceFirst, hb]
        rw [h1]
        show b.id :: idsOf (replaceFirst (fun x => x.id == j) f bs) = b.id :: idsOf bs
        rw [ih]

theorem getId_eq_none_iff (bs : List Billete) (i : Nat) :
    getId bs i = none ↔ ∀ b ∈ bs, b.id ≠ i := by
  simp [getId, List.find?_eq_none]

theorem getId_eq_some_iff (bs : List Billete) (i : Nat) (h : (idsOf bs).Nodup)
    (b : Billete) : getId bs i = some b ↔ b ∈ bs ∧ b.id = i := by
  induction bs with
  | nil => simp [getId]
  | cons c bs ih =>
      have h' : (∀ x ∈ bs, ¬ x.id = c.id) ∧ (List.map (fun b => b.id) bs).Nodup := by
        simpa [idsOf] using h
      have hnd : (idsOf bs).Nodup := h'.2
      rw [getId_cons]
      by_cases hc : c.id = i
      · rw [if_pos hc]
        constructor
        · intro hsome
          have hbc : b = c := by
            have := hsome
            injection this with h2
            exact h2.symm
          subst hbc
          exact ⟨List.mem_cons_self _ _, hc⟩
        · rintro ⟨hmem, hbi⟩
          rcases List.mem_cons.mp hmem with rfl | hmem'
          · rfl
          · exact absurd (hbi.trans hc.symm) (h'.1 b hmem')
      · rw [if_neg hc, ih hnd]
        constructor
        · rintro ⟨hmem, hbi⟩
          exact ⟨List.mem_cons_of_mem _ hmem, hbi⟩
        · rintro ⟨hmem, hbi⟩
          rcases List.mem_cons.mp hmem with rfl | hmem'
          · exact absurd hbi hc
          · exact ⟨hmem', hbi⟩

theorem getId_perm {bs bs' : List Billete} (hp : bs.Perm bs')
    (h : (idsOf bs).Nodup) (i : Nat) : getId bs i = getId bs' i := by
  have h' : (idsOf bs').Nodup := by
    have := (hp.map (fun b => b.id)).nodup_iff.mp (by simpa [idsOf] using h)
    simpa [idsOf] using this
  cases hg : getId bs' i with
  | none =>
      rw [getId_eq_none_iff] at hg ⊢
      intro b hb
      exact hg b (hp.mem_iff.mp hb)
  | some b =>
      rw [getId_eq_some_iff bs' i h'] at hg
      rw [getId_eq_some_iff bs i h]
      exact ⟨hp.mem_iff.mpr hg.1, hg.2⟩

theorem nodup_idsOf_ordenar (bs : List Billete) (h : (idsOf bs).Nodup) :
    (idsOf (ordenarPorEstado bs)).Nodup := by
  have := ((ordenarPorEstado_perm bs).map (fun b => b.id)).nodup_iff.mpr
    (by simpa [idsOf] using h)
  simpa [idsOf] using this

theorem getId_ordenar (bs : List Billete) (h : (idsOf bs).Nodup) (i : Nat) :
    getId (ordenarPorEstado bs) i = getId bs i :=
  getId_perm (ordenarPorEstado_perm bs) (nodup_idsOf_ordenar bs h) i

theorem lookupPrevio_cons (j : Nat) (b : Billete) (prev : List (Nat × Billete)) (i : Nat) :
    lookupPrevio ((j, b) :: prev) i = if j = i then some b else lookupPrevio prev i := by
  by_cases h : j = i <;> simp [lookupPrevio, List.find?_cons, h]

/-- Per-ticket effect of the whole optimistic phase of `venderMultiple`:
each selected ticket that exists in the list is snapshotted with its
pre-batch value and its entry becomes the VENDIDO copy; every other
ticket's entry and every other snapshot slot are untouched. -/
theorem optimisticFold_spec (ids : List Nat) :
    ∀ (bs : List Billete) (prev0 : List (Nat × Billete)),
      (idsOf bs).Nodup → ids.Nodup →
      (∀ i ∈ ids, lookupPrevio prev0 i = none) →
      idsOf (ids.foldl optimisticStep (bs, prev0)).1 = idsOf bs ∧
      (∀ i ∈ ids,
        getId (ids.foldl optimisticStep (bs, prev0)).1 i = (getId bs i).map setVendido ∧
        lookupPrevio (ids.foldl optimisticStep (bs, prev0)).2 i = getId bs i) ∧
      (∀ i, i ∉ ids →
        getId (ids.foldl optimisticStep (bs, prev0)).1 i = getId bs i ∧
        lookupPrevio (ids.foldl optimisticStep (bs, prev0)).2 i = lookupPrevio prev0 i) := by
  induction ids with
  | nil =>
      intro bs prev0 _ _ _
      refine ⟨rfl, ?_, ?_⟩
      · intro i hi; cases hi
      · intro i _; exact ⟨rfl, rfl⟩
  | cons a rest ih =>
      intro bs prev0 hbs hnd hprev
      have hndr : rest.Nodup := (List.nodup_cons.mp hnd).2
      have hna : a ∉ rest := (List.nodup_cons.mp hnd).1
      rw [List.foldl_cons]
      cases hga : getId bs a with
      | none =>
          have hstep : optimisticStep (bs, prev0) a = (bs, prev0) := by
            simp [optimisticStep, hga]
          rw [hstep]
          have hmain := ih bs prev0 hbs hndr
            (fun i hi => hprev i (List.mem_cons_of_mem a hi))
          refine ⟨hmain.1, ?_, ?_⟩
          · intro i hi
            rcases List.mem_cons.mp hi with rfl | hi'
            · have h3 := hmain.2.2 i hna
              refine ⟨?_, ?_⟩
              · rw [h3.1, hga]; rfl
              · rw [h3.2, hprev i (List.mem_cons_self i rest), hga]
            · exact hmain.2.1 i hi'
          · intro i hi
            exact hmain.2.2 i (fun hcon => hi (List.mem_cons_of_mem a hcon))
      | some b =>
          have hstep : optimisticStep (bs, prev0) a =
              (replaceFirst (fun x => x.id == a) setVendido bs, (a, b) :: prev0) := by
            simp [optimisticStep, hga]
          rw [hstep]
          have hbid : b.id = a := by
            have := List.find?_some (show List.find? (fun x => x.id == a) bs = some b from hga)
            simpa using this
          have hfpres : ∀ x : Billete, x.id = a → (setVendido x).id = a := by
            intro x hx; simpa [setVendido] using hx
          have hids : idsOf (replaceFirst (fun x => x.id == a) setVendido bs) = idsOf bs :=
            idsOf_replaceFirst setVendido a hfpres bs
          have hbs' : (idsOf (replaceFirst (fun x => x.id == a) setVendido bs)).Nodup := by
            rw [hids]; exact hbs
          have hprev' : ∀ i ∈ rest, lookupPrevio ((a, b) :: prev0) i = none := by
            intro i hi
            have hne : ¬ a = i := by
              intro hcon
              subst hcon
              exact hna hi
            rw [lookupPrevio_cons, if_neg hne]
            exact hprev i (List.mem_cons_of_mem a hi)
          have hmain := ih _ _ hbs' hndr hprev'
          have hgnew : ∀ i, getId (replaceFirst (fun x => x.id == a) setVendido bs) i =
              if i = a then (getId bs a).map setVendido else getId bs i :=
            fun i => getId_replaceFirst setVendido a hfpres bs i
          refine ⟨by rw [hmain.1, hids], ?_, ?_⟩
          · intro i hi
            rcases List.mem_cons.mp hi with rfl | hi'
            · have h3 := hmain.2.2 i hna
              refine ⟨?_, ?_⟩
              · rw [h3.1, hgnew, if_pos rfl]
              · rw [h3.2, lookupPrevio_cons, if_pos rfl, hga]
            · have h2 := hmain.2.1 i hi'
              have hia : i ≠ a := by
                intro hcon
                subst hcon
                exact hna hi'
              refine ⟨?_, ?_⟩
              · rw [h2.1, hgnew, if_neg hia]
              · rw [h2.2, hgnew, if_neg hia]
          · intro i hi
            have hia : i ≠ a := by
              intro hcon
              subst hcon
              exact hi (List.mem_cons_self i rest)
            have hir : i ∉ rest := fun hcon => hi (List.mem_cons_of_mem a hcon)
            have h3 := hmain.2.2 i hir
            have hne : ¬ a = i := fun hcon => hia hcon.symm
            refine ⟨?_, ?_⟩
            · rw [h3.1, hgnew, if_neg hia]
            · rw [h3.2, lookupPrevio_cons, if_neg hne]

/-! ### Accounting of the sequential sale loop (C9) -/

theorem venderMultiple_eq (backend : VentaRequest → VentaResult)
    (sorteoId clienteId : Nat) (ids : List Nat) (bs : List Billete) (hne : ids ≠ []) :
    venderMultiple true backend sorteoId clienteId ids bs =
      (let opt := ids.foldl optimisticStep (bs, [])
       let st := ids.foldl (saleStep backend sorteoId clienteId opt.2)
         ⟨ordenarPorEstado opt.1, [], [], []⟩
       { st with billetes := ordenarPorEstado st.billetes }) := by
  cases ids with
  | nil => exact absurd rfl hne
  | cons a l => rfl

theorem saleFold_length (backend : VentaRequest → VentaResult)
    (sorteoId clienteId : Nat) (previos : List (Nat × Billete)) (ids : List Nat) :
    ∀ st : MultiState,
      (ids.foldl (saleStep backend sorteoId clienteId previos) st).exitos.length +
        (ids.foldl (saleStep backend sorteoId clienteId previos) st).fallos.length =
      st.exitos.length + st.fallos.length + ids.length := by
  induction ids with
  | nil => intro st; simp
  | cons a rest ih =>
      intro st
      rw [List.foldl_cons, ih]
      cases hb : backend ⟨sorteoId, a, clienteId⟩ with
      | ok r =>
          simp only [saleStep, hb, List.length_append, List.length_cons, List.length_nil,
            List.length]
          omega
      | httpError s =>
          simp only [saleStep, hb, List.length_append, List.length_cons, List.length_nil,
            List.length]
          omega

theorem reporteFinal_cases (st : MultiState) :
    (reporteFinal st = .completa ↔ st.fallos = []) ∧
    (reporteFinal st = .ninguno ↔ st.exitos = [] ∧ st.fallos ≠ []) ∧
    (reporteFinal st = .parcial ↔ st.exitos ≠ [] ∧ st.fallos ≠ []) := by
  unfold reporteFinal
  by_cases h1 : st.fallos.length = 0
  · have he : st.fallos = [] := List.length_eq_zero.mp h1
    simp [h1, he]
  · have h1' : st.fallos ≠ [] := fun hcon => h1 (by simp [hcon])
    by_cases h2 : st.exitos.length = 0
    · have he : st.exitos = [] := List.length_eq_zero.mp h2
      simp [h1, h2, he, h1']
    · have h2' : st.exitos ≠ [] := fun hcon => h2 (by simp [hcon])
      simp [h1, h2, h1', h2']

/-- C9: in a confirmed multi-ticket sale over a non-empty selection, every
selected id contributes exactly one entry to exactly one of `exitos` and
`fallos` (their lengths sum to the number of selected ids), and the final
report trichotomy is exact: full success iff no failures, total failure
iff no successes (and some failure), partial otherwise. -/
theorem venderMultiple_conteo (backend : VentaRequest → VentaResult)
    (sorteoId clienteId : Nat) (ids : List Nat) (bs : List Billete) (hne : ids ≠ []) :
    (venderMultiple true backend sorteoId clienteId ids bs).exitos.length +
      (venderMultiple true backend sorteoId clienteId ids bs).fallos.length =
      ids.length ∧
    (reporteFinal (venderMultiple true backend sorteoId clienteId ids bs) = .completa ↔
      (venderMultiple true backend sorteoId clienteId ids bs).fallos = []) ∧
    (reporteFinal (venderMultiple true backend sorteoId clienteId ids bs) = .ninguno ↔
      (venderMultiple true backend sorteoId clienteId ids bs).exitos = [] ∧
      (venderMultiple true backend sorteoId clienteId ids bs).fallos ≠ []) ∧
    (reporteFinal (venderMultiple true backend sorteoId clienteId ids bs) = .parcial ↔
      (venderMultiple true backend sorteoId clienteId ids bs).exitos ≠ [] ∧
      (venderMultiple true backend sorteoId clienteId ids bs).fallos ≠ []) := by
  refine ⟨?_, reporteFinal_cases _⟩
  rw [venderMultiple_eq backend sorteoId clienteId ids bs hne]
  have := saleFold_length backend sorteoId clienteId
    (ids.foldl optimisticStep (bs, [])).2 ids
    ⟨ordenarPorEstado (ids.foldl optimisticStep (bs, [])).1, [], [], []⟩
  simpa using this

/-- Witness for C9: a two-ticket batch against a backend that accepts
ticket 1 and rejects ticket 2 gives one success, one failure, and the
partial report. -/
theorem venderMultiple_conteo_witness :
    ([1, 2] : List Nat) ≠ [] ∧
    ((venderMultiple true
        (fun r => if r.billeteId == 2 then .httpError 409
          else .ok ⟨r.billeteId, 1, 50, EstadoBillete.VENDIDO, 1, some r.clienteId⟩)
        1 5 [1, 2]
        [⟨1, 10, 50, EstadoBillete.DISPONIBLE, 1, none⟩,
         ⟨2, 20, 50, EstadoBillete.DISPONIBLE, 1, none⟩]).exitos.length +
      (venderMultiple true
        (fun r => if r.billeteId == 2 then .httpError 409
          else .ok ⟨r.billeteId, 1, 50, EstadoBillete.VENDIDO, 1, some r.clienteId⟩)
        1 5 [1, 2]
        [⟨1, 10, 50, EstadoBillete.DISPONIBLE, 1, none⟩,
         ⟨2, 20, 50, EstadoBillete.DISPONIBLE, 1, none⟩]).fallos.length =
      ([1, 2] : List Nat).length) := by
  constructor
  · decide
  · exact (venderMultiple_conteo
      (fun r => if r.billeteId == 2 then .httpError 409
        else .ok ⟨r.billeteId, 1, 50, EstadoBillete.VENDIDO, 1, some r.clienteId⟩)
      1 5 [1, 2]
      [⟨1, 10, 50, EstadoBillete.DISPONIBLE, 1, none⟩,
       ⟨2, 20, 50, EstadoBillete.DISPONIBLE, 1, none⟩] (by decide)).1

/-! ### Partial failure in a batch (C1) -/

theorem saleStep_ok (backend : VentaRequest → VentaResult) (sorteoId clienteId : Nat)
    (previos : List (Nat × Billete)) (st : MultiState) (i : Nat)
    (h : esOk (backend ⟨sorteoId, i, clienteId⟩) = true) :
    saleStep backend sorteoId clienteId previos st i =
      { st with exitos := st.exitos ++ [numeroDe st.billetes i],
                requests := st.requests ++ [⟨sorteoId, i, clienteId⟩] } := by
  cases hb : backend ⟨sorteoId, i, clienteId⟩ with
  | ok r => simp [saleStep, hb]
  | httpError s => simp [esOk, hb] at h

theorem saleStep_error (backend : VentaRequest → VentaResult) (sorteoId clienteId : Nat)
    (previos : List (Nat × Billete)) (st : MultiState) (i : Nat)
    (h : esOk (backend ⟨sorteoId, i, clienteId⟩) = false) :
    saleStep backend sorteoId clienteId previos st i =
      { billetes := revertirBillete previos st.billetes i,
        exitos := st.exitos,
        fallos := st.fallos ++ [numeroDe (revertirBillete previos st.billetes i) i],
        requests := st.requests ++ [⟨sorteoId, i, clienteId⟩] } := by
  cases hb : backend ⟨sorteoId, i, clienteId⟩ with
  | ok r => simp [esOk, hb] at h
  | httpError s => simp [saleStep, hb]

/-- C1: in a confirmed multi-ticket sale over selected ids `[A, B, C]`
where the backend call for `B` fails (conflict or generic) while `A` and
`C` succeed, the success list is exactly `[A.numero, C.numero]`, the
failure list is exactly `[B.numero]`, ticket `B`'s entry in the local list
is restored to its pre-attempt snapshot, and `A`'s and `C`'s entries show
state VENDIDO until the post-batch reload. -/
theorem venderMultiple_parcial (backend : VentaRequest → VentaResult)
    (sorteoId clienteId : Nat) (bs : List Billete) (A B C : Nat) (bA bB bC : Billete)
    (hnd : (idsOf bs).Nodup)
    (hAB : A ≠ B) (hAC : A ≠ C) (hBC : B ≠ C)
    (hA : getId bs A = some bA) (hB : getId bs B = some bB) (hC : getId bs C = some bC)
    (hdA : bA.estado = EstadoBillete.DISPONIBLE)
    (hdB : bB.estado = EstadoBillete.DISPONIBLE)
    (hdC : bC.estado = EstadoBillete.DISPONIBLE)
    (hokA : esOk (backend ⟨sorteoId, A, clienteId⟩) = true)
    (hfailB : esOk (backend ⟨sorteoId, B, clienteId⟩) = false)
    (hokC : esOk (backend ⟨sorteoId, C, clienteId⟩) = true) :
    (venderMultiple true backend sorteoId clienteId [A, B, C] bs).exitos =
      [bA.numero, bC.numero] ∧
    (venderMultiple true backend sorteoId clienteId [A, B, C] bs).fallos = [bB.numero] ∧
    getId (venderMultiple true backend sorteoId clienteId [A, B, C] bs).billetes B =
      some bB ∧
    getId (venderMultiple true backend sorteoId clienteId [A, B, C] bs).billetes A =
      some (setVendido bA) ∧
    getId (venderMultiple true backend sorteoId clienteId [A, B, C] bs).billetes C =
      some (setVendido bC) := by
  have hids_nodup : ([A, B, C] : List Nat).Nodup := by simp [hAB, hAC, hBC]
  have hopt := optimisticFold_spec [A, B, C] bs [] hnd hids_nodup (fun i _ => rfl)
  have hids1 : idsOf (([A, B, C] : List Nat).foldl optimisticStep (bs, [])).1 = idsOf bs :=
    hopt.1
  have hnd1 : (idsOf (([A, B, C] : List Nat).foldl optimisticStep (bs, [])).1).Nodup := by
    rw [hids1]; exact hnd
  have hA1 : getId (([A, B, C] : List Nat).foldl optimisticStep (bs, [])).1 A =
      some (setVendido bA) := by
    rw [(hopt.2.1 A (by simp)).1, hA]; rfl
  have hB1 : getId (([A, B, C] : List Nat).foldl optimisticStep (bs, [])).1 B =
      some (setVendido bB) := by
    rw [(hopt.2.1 B (by simp)).1, hB]; rfl
  have hC1 : getId (([A, B, C] : List Nat).foldl optimisticStep (bs, [])).1 C =
      some (setVendido bC) := by
    rw [(hopt.2.1 C (by simp)).1, hC]; rfl
  have hprevB : lookupPrevio (([A, B, C] : List Nat).foldl optimisticStep (bs, [])).2 B =
      some bB :=
    ((hopt.2.1 B (by simp)).2).trans hB
  have hA2 : getId (ordenarPorEstado (([A, B, C] : List Nat).foldl optimisticStep
      (bs, [])).1) A = some (setVendido bA) :=
    (getId_ordenar _ hnd1 A).trans hA1
  have hB2 : getId (ordenarPorEstado (([A, B, C] : List Nat).foldl optimisticStep
      (bs, [])).1) B = some (setVendido bB) :=
    (getId_ordenar _ hnd1 B).trans hB1
  have hC2 : getId (ordenarPorEstado (([A, B, C] : List Nat).foldl optimisticStep
      (bs, [])).1) C = some (setVendido bC) :=
    (getId_ordenar _ hnd1 C).trans hC1
  have hnd2 : (idsOf (ordenarPorEstado (([A, B, C] : List Nat).foldl optimisticStep
      (bs, [])).1)).Nodup := nodup_idsOf_ordenar _ hnd1
  have hBid : bB.id = B := by
    have := List.find?_some (show List.find? (fun x => x.id == B) bs = some bB from hB)
    simpa using this
  have hfB : ∀ x : Billete, x.id = B → ((fun _ => bB) x).id = B := fun x _ => hBid
  have hrev : revertirBillete (([A, B, C] : List Nat).foldl optimisticStep (bs, [])).2
      (ordenarPorEstado (([A, B, C] : List Nat).foldl optimisticStep (bs, [])).1) B =
      replaceFirst (fun x => x.id == B) (fun _ => bB)
        (ordenarPorEstado (([A, B, C] : List Nat).foldl optimisticStep (bs, [])).1) := by
    unfold revertirBillete
    rw [hprevB]
  have hB3 : getId (revertirBillete (([A, B, C] : List Nat).foldl optimisticStep (bs, [])).2
      (ordenarPorEstado (([A, B, C] : List Nat).foldl optimisticStep (bs, [])).1) B) B =
      some bB := by
    rw [hrev, getId_replaceFirst (fun _ => bB) B hfB _ B, if_pos rfl, hB2]; rfl
  have hA3 : getId (revertirBillete (([A, B, C] : List Nat).foldl optimisticStep (bs, [])).2
      (ordenarPorEstado (([A, B, C] : List Nat).foldl optimisticStep (bs, [])).1) B) A =
      some (setVendido bA) := by
    rw [hrev, getId_replaceFirst (fun _ => bB) B hfB _ A, if_neg hAB, hA2]
  have hC3 : getId (revertirBillete (([A, B, C] : List Nat).foldl optimisticStep (bs, [])).2
      (ordenarPorEstado (([A, B, C] : List Nat).foldl optimisticStep (bs, [])).1) B) C =
      some (setVendido bC) := by
    have hCB : C ≠ B := fun hcon => hBC hcon.symm
    rw [hrev, getId_replaceFirst (fun _ => bB) B hfB _ C, if_neg hCB, hC2]
  have hnd3 : (idsOf (revertirBillete (([A, B, C] : List Nat).foldl optimisticStep
      (bs, [])).2 (ordenarPorEstado (([A, B, C] : List Nat).foldl optimisticStep
      (bs, [])).1) B)).Nodup := by
    rw [hrev, idsOf_replaceFirst (fun _ => bB) B hfB]
    exact hnd2
  have key : venderMultiple true backend sorteoId clienteId [A, B, C] bs =
      { billetes := ordenarPorEstado (revertirBillete
          (([A, B, C] : List Nat).foldl optimisticStep (bs, [])).2
          (ordenarPorEstado (([A, B, C] : List Nat).foldl optimisticStep (bs, [])).1) B),
        exitos := [numeroDe (ordenarPorEstado
            (([A, B, C] : List Nat).foldl optimisticStep (bs, [])).1) A,
          numeroDe (revertirBillete
            (([A, B, C] : List Nat).foldl optimisticStep (bs, [])).2
            (ordenarPorEstado (([A, B, C] : List Nat).foldl optimisticStep (bs, [])).1) B) C],
        fallos := [numeroDe (revertirBillete
            (([A, B, C] : List Nat).foldl optimisticStep (bs, [])).2
            (ordenarPorEstado (([A, B, C] : List Nat).foldl optimisticStep (bs, [])).1) B) B],
        requests := [⟨sorteoId, A, clienteId⟩, ⟨sorteoId, B, clienteId⟩,
          ⟨sorteoId, C, clienteId⟩] } := by
    rw [venderMultiple_eq backend sorteoId clienteId [A, B, C] bs (by simp)]
    simp only [List.foldl_cons, List.foldl_nil]
    rw [saleStep_ok backend sorteoId clienteId _ _ A hokA]
    rw [saleStep_error backend sorteoId clienteId _ _ B hfailB]
    rw [saleStep_ok backend sorteoId clienteId _ _ C hokC]
    simp
  have hnums2A : numeroDe (ordenarPorEstado (([A, B, C] : List Nat).foldl optimisticStep
      (bs, [])).1) A = bA.numero := by
    unfold numeroDe
    rw [hA2]
    rfl
  have hnums3C : numeroDe (revertirBillete (([A, B, C] : List Nat).foldl optimisticStep
      (bs, [])).2 (ordenarPorEstado (([A, B, C] : List Nat).foldl optimisticStep
      (bs, [])).1) B) C = bC.numero := by
    unfold numeroDe
    rw [hC3]
    rfl
  have hnums3B : numeroDe (revertirBillete (([A, B, C] : List Nat).foldl optimisticStep
      (bs, [])).2 (ordenarPorEstado (([A, B, C] : List Nat).foldl optimisticStep
      (bs, [])).1) B) B = bB.numero := by
    unfold numeroDe
    rw [hB3]
  refine ⟨?_, ?_, ?_, ?_, ?_⟩
  · rw [key]
    simp only [hnums2A, hnums3C]
  · rw [key]
    simp only [hnums3B]
  · rw [key]
    show getId (ordenarPorEstado _) B = some bB
    rw [getId_ordenar _ hnd3 B]
    exact hB3
  · rw [key]
    show getId (ordenarPorEstado _) A = some (setVendido bA)
    rw [getId_ordenar _ hnd3 A]
    exact hA3
  · rw [key]
    show getId (ordenarPorEstado _) C = some (setVendido bC)
    rw [getId_ordenar _ hnd3 C]
    exact hC3

/-- Witness for C1: three available tickets, a backend that rejects the
second id and accepts the others. -/
theorem venderMultiple_parcial_witness :
    (venderMultiple true
        (fun r => if r.billeteId == 2 then .httpError 500
          else .ok ⟨r.billeteId, 0, 50, EstadoBillete.VENDIDO, 1, some r.clienteId⟩)
        1 5 [1, 2, 3]
        [⟨1, 10, 50, EstadoBillete.DISPONIBLE, 1, none⟩,
         ⟨2, 20, 50, EstadoBillete.DISPONIBLE, 1, none⟩,
         ⟨3, 30, 50, EstadoBillete.DISPONIBLE, 1, none⟩]).exitos = [10, 30] ∧
    (venderMultiple true
        (fun r => if r.billeteId == 2 then .httpError 500
          else .ok ⟨r.billeteId, 0, 50, EstadoBillete.VENDIDO, 1, some r.clienteId⟩)
        1 5 [1, 2, 3]
        [⟨1, 10, 50, EstadoBillete.DISPONIBLE, 1, none⟩,
         ⟨2, 20, 50, EstadoBillete.DISPONIBLE, 1, none⟩,
         ⟨3, 30, 50, EstadoBillete.DISPONIBLE, 1, none⟩]).fallos = [20] ∧
    getId (venderMultiple true
        (fun r => if r.billeteId == 2 then .httpError 500
          else .ok ⟨r.billeteId, 0, 50, EstadoBillete.VENDIDO, 1, some r.clienteId⟩)
        1 5 [1, 2, 3]
        [⟨1, 10, 50, EstadoBillete.DISPONIBLE, 1, none⟩,
         ⟨2, 20, 50, EstadoBillete.DISPONIBLE, 1, none⟩,
         ⟨3, 30, 50, EstadoBillete.DISPONIBLE, 1, none⟩]).billetes 2 =
      some ⟨2, 20, 50, EstadoBillete.DISPONIBLE, 1, none⟩ ∧
    getId (venderMultiple true
        (fun r => if r.billeteId == 2 then .httpError 500
          else .ok ⟨r.billeteId, 0, 50, EstadoBillete.VENDIDO, 1, some r.clienteId⟩)
        1 5 [1, 2, 3]
        [⟨1, 10, 50, EstadoBillete.DISPONIBLE, 1, none⟩,
         ⟨2, 20, 50, EstadoBillete.DISPONIBLE, 1, none⟩,
         ⟨3, 30, 50, EstadoBillete.DISPONIBLE, 1, none⟩]).billetes 1 =
      some (setVendido ⟨1, 10, 50, EstadoBillete.DISPONIBLE, 1, none⟩) ∧
    getId (venderMultiple true
        (fun r => if r.billeteId == 2 then .httpError 500
          else .ok ⟨r.billeteId, 0, 50, EstadoBillete.VENDIDO, 1, some r.clienteId⟩)
        1 5 [1, 2, 3]
        [⟨1, 10, 50, EstadoBillete.DISPONIBLE, 1, none⟩,
         ⟨2, 20, 50, EstadoBillete.DISPONIBLE, 1, none⟩,
         ⟨3, 30, 50, EstadoBillete.DISPONIBLE, 1, none⟩]).billetes 3 =
      some (setVendido ⟨3, 30, 50, EstadoBillete.DISPONIBLE, 1, none⟩) := by
  exact venderMultiple_parcial
    (fun r => if r.billeteId == 2 then .httpError 500
      else .ok ⟨r.billeteId, 0, 50, EstadoBillete.VENDIDO, 1, some r.clienteId⟩)
    1 5
    [⟨1, 10, 50, EstadoBillete.DISPONIBLE, 1, none⟩,
     ⟨2, 20, 50, EstadoBillete.DISPONIBLE, 1, none⟩,
     ⟨3, 30, 50, EstadoBillete.DISPONIBLE, 1, none⟩]
    1 2 3
    ⟨1, 10, 50, EstadoBillete.DISPONIBLE, 1, none⟩
    ⟨2, 20, 50, EstadoBillete.DISPONIBLE, 1, none⟩
    ⟨3, 30, 50, EstadoBillete.DISPONIBLE, 1, none⟩
    (by decide) (by decide) (by decide) (by decide)
    rfl rfl rfl rfl rfl rfl
    (by decide) (by decide) (by decide)

/-! ### Per-ticket snapshot and frame of the revert (C4) -/

/-- C4: for any batch, the snapshot recorded for a selected ticket during
the optimistic phase is exactly that ticket's pre-batch entry (a copy made
immediately before its own optimistic mutation, unaffected by any other
ticket's operations), and the revert that uses it replaces only that
ticket's entry in whatever the current ticket list is: every other
ticket's entry — including earlier successes and failures of the same
batch — is unchanged by the revert. -/
theorem revert_snapshot_frame (ids : List Nat) (bs0 : List Billete) (i : Nat)
    (bi : Billete) (hnd : (idsOf bs0).Nodup) (hids : ids.Nodup) (hmem : i ∈ ids)
    (hbi : getId bs0 i = some bi) :
    lookupPrevio (ids.foldl optimisticStep (bs0, [])).2 i = some bi ∧
    (∀ (bs : List Billete) (j : Nat), j ≠ i →
      getId (revertirBillete (ids.foldl optimisticStep (bs0, [])).2 bs i) j =
        getId bs j) ∧
    (∀ bs : List Billete, (getId bs i).isSome = true →
      getId (revertirBillete (ids.foldl optimisticStep (bs0, [])).2 bs i) i = some bi) := by
  have hopt := optimisticFold_spec ids bs0 [] hnd hids (fun k _ => rfl)
  have hsnap : lookupPrevio (ids.foldl optimisticStep (bs0, [])).2 i = some bi :=
    ((hopt.2.1 i hmem).2).trans hbi
  have hbiid : bi.id = i := by
    have := List.find?_some (show List.find? (fun x => x.id == i) bs0 = some bi from hbi)
    simpa using this
  have hf : ∀ x : Billete, x.id = i → ((fun _ => bi) x).id = i := fun x _ => hbiid
  refine ⟨hsnap, ?_, ?_⟩
  · intro bs j hji
    have hrev : revertirBillete (ids.foldl optimisticStep (bs0, [])).2 bs i =
        replaceFirst (fun x => x.id == i) (fun _ => bi) bs := by
      unfold revertirBillete
      rw [hsnap]
    rw [hrev, getId_replaceFirst (fun _ => bi) i hf bs j, if_neg hji]
  · intro bs hs
    have hrev : revertirBillete (ids.foldl optimisticStep (bs0, [])).2 bs i =
        replaceFirst (fun x => x.id == i) (fun _ => bi) bs := by
      unfold revertirBillete
      rw [hsnap]
    rw [hrev, getId_replaceFirst (fun _ => bi) i hf bs i, if_pos rfl]
    cases hg : getId bs i with
    | none => rw [hg] at hs; simp at hs
    | some x => simp

/-- Witness for C4: two tickets optimistically marked, then ticket 2
reverted against a mid-loop list: the snapshot is its original entry and
ticket 1's entry is untouched by the revert. -/
theorem revert_snapshot_frame_witness :
    lookupPrevio (([1, 2] : List Nat).foldl optimisticStep
        ([⟨1, 10, 50, EstadoBillete.DISPONIBLE, 1, none⟩,
          ⟨2, 20, 50, EstadoBillete.DISPONIBLE, 1, none⟩], [])).2 2 =
      some ⟨2, 20, 50, EstadoBillete.DISPONIBLE, 1, none⟩ ∧
    getId (revertirBillete
        (([1, 2] : List Nat).foldl optimisticStep
          ([⟨1, 10, 50, EstadoBillete.DISPONIBLE, 1, none⟩,
            ⟨2, 20, 50, EstadoBillete.DISPONIBLE, 1, none⟩], [])).2
        [⟨1, 10, 50, EstadoBillete.VENDIDO, 1, none⟩,
         ⟨2, 20, 50, EstadoBillete.VENDIDO, 1, none⟩] 2) 1 =
      getId [⟨1, 10, 50, EstadoBillete.VENDIDO, 1, none⟩,
        ⟨2, 20, 50, EstadoBillete.VENDIDO, 1, none⟩] 1 ∧
    getId (revertirBillete
        (([1, 2] : List Nat).foldl optimisticStep
          ([⟨1, 10, 50, EstadoBillete.DISPONIBLE, 1, none⟩,
            ⟨2, 20, 50, EstadoBillete.DISPONIBLE, 1, none⟩], [])).2
        [⟨1, 10, 50, EstadoBillete.VENDIDO, 1, none⟩,
         ⟨2, 20, 50, EstadoBillete.VENDIDO, 1, none⟩] 2) 2 =
      some ⟨2, 20, 50, EstadoBillete.DISPONIBLE, 1, none⟩ := by
  have h := revert_snapshot_frame [1, 2]
    [⟨1, 10, 50, EstadoBillete.DISPONIBLE, 1, none⟩,
     ⟨2, 20, 50, EstadoBillete.DISPONIBLE, 1, none⟩] 2
    ⟨2, 20, 50, EstadoBillete.DISPONIBLE, 1, none⟩
    (by decide) (by decide) (by decide) rfl
  exact ⟨h.1,
    h.2.1 [⟨1, 10, 50, EstadoBillete.VENDIDO, 1, none⟩,
      ⟨2, 20, 50, EstadoBillete.VENDIDO, 1, none⟩] 1 (by decide),
    h.2.2 [⟨1, 10, 50, EstadoBillete.VENDIDO, 1, none⟩,
      ⟨2, 20, 50, EstadoBillete.VENDIDO, 1, none⟩] (by decide)⟩

/-! ### Local precondition failures of `vender` (C3) -/

/-- C3: each of `vender`'s four local precondition failures — no raffle
selected, no customer selected, raffle no longer active re-checked at sale
time, and no ticket selected — reports its own dialog title (the four
titles are pairwise distinct), issues no sale request to the backend, and
leaves the ticket list and the success/failure accounting untouched. -/
theorem vender_precondiciones (inicioHoy : Int) (seleccionado : Option Sorteo)
    (clienteId : Option Nat) (ventaMultiple : Bool) (seleccionMultipleIds : List Nat)
    (billeteSeleccionado : Option Billete) (confirmaUnica confirmaMultiple : Bool)
    (backend : VentaRequest → VentaResult) (bs : List Billete) :
    (seleccionado = none →
      vender inicioHoy seleccionado clienteId ventaMultiple seleccionMultipleIds
        billeteSeleccionado confirmaUnica confirmaMultiple backend bs =
      ⟨some "Selecciona un sorteo", bs, [], [], []⟩) ∧
    (∀ s, seleccionado = some s → esFalsy clienteId = true →
      vender inicioHoy seleccionado clienteId ventaMultiple seleccionMultipleIds
        billeteSeleccionado confirmaUnica confirmaMultiple backend bs =
      ⟨some "Selecciona un cliente", bs, [], [], []⟩) ∧
    (∀ s, seleccionado = some s → esFalsy clienteId = false →
      esActivo inicioHoy s = false →
      vender inicioHoy seleccionado clienteId ventaMultiple seleccionMultipleIds
        billeteSeleccionado confirmaUnica confirmaMultiple backend bs =
      ⟨some "Sorteo inactivo", bs, [], [], []⟩) ∧
    (∀ s, seleccionado = some s → esFalsy clienteId = false →
      esActivo inicioHoy s = true →
      (ventaMultiple && !seleccionMultipleIds.isEmpty) = false →
      billeteSeleccionado = none →
      vender inicioHoy seleccionado clienteId ventaMultiple seleccionMultipleIds
        billeteSeleccionado confirmaUnica confirmaMultiple backend bs =
      ⟨some "Selecciona un billete", bs, [], [], []⟩) ∧
    (["Selecciona un sorteo", "Selecciona un cliente", "Sorteo inactivo",
      "Selecciona un billete"] : List String).Nodup := by
  refine ⟨?_, ?_, ?_, ?_, by decide⟩
  · rintro rfl
    rfl
  · rintro s rfl hcf
    simp [vender, hcf]
  · rintro s rfl hcf hact
    simp [vender, hcf, hact]
  · rintro s rfl hcf hact hm rfl
    simp [vender, hcf, hact, hm]

/-- Witness for C3: the four precondition failures hit at concrete states;
in each case the result carries the distinct title, the untouched ticket
list, and empty request/success/failure lists. -/
theorem vender_precondiciones_witness :
    vender 0 none (some 5) false [] none true true (fun _ => .httpError 500)
        [⟨1, 10, 50, EstadoBillete.DISPONIBLE, 1, none⟩] =
      ⟨some "Selecciona un sorteo",
        [⟨1, 10, 50, EstadoBillete.DISPONIBLE, 1, none⟩], [], [], []⟩ ∧
    vender 0 (some ⟨1, "S", 10, 0, none⟩) none false [] none true true
        (fun _ => .httpError 500) [⟨1, 10, 50, EstadoBillete.DISPONIBLE, 1, none⟩] =
      ⟨some "Selecciona un cliente",
        [⟨1, 10, 50, EstadoBillete.DISPONIBLE, 1, none⟩], [], [], []⟩ ∧
    vender 5 (some ⟨1, "S", 3, 0, none⟩) (some 7) false [] none true true
        (fun _ => .httpError 500) [⟨1, 10, 50, EstadoBillete.DISPONIBLE, 1, none⟩] =
      ⟨some "Sorteo inactivo",
        [⟨1, 10, 50, EstadoBillete.DISPONIBLE, 1, none⟩], [], [], []⟩ ∧
    vender 0 (some ⟨1, "S", 10, 0, none⟩) (some 7) false [] none true true
        (fun _ => .httpError 500) [⟨1, 10, 50, EstadoBillete.DISPONIBLE, 1, none⟩] =
      ⟨some "Selecciona un billete",
        [⟨1, 10, 50, EstadoBillete.DISPONIBLE, 1, none⟩], [], [], []⟩ := by
  refine ⟨?_, ?_, ?_, ?_⟩
  · exact (vender_precondiciones 0 none (some 5) false [] none true true
      (fun _ => .httpError 500) [⟨1, 10, 50, EstadoBillete.DISPONIBLE, 1, none⟩]).1 rfl
  · exact (vender_precondiciones 0 (some ⟨1, "S", 10, 0, none⟩) none false [] none
      true true (fun _ => .httpError 500)
      [⟨1, 10, 50, EstadoBillete.DISPONIBLE, 1, none⟩]).2.1 ⟨1, "S", 10, 0, none⟩ rfl rfl
  · exact (vender_precondiciones 5 (some ⟨1, "S", 3, 0, none⟩) (some 7) false [] none
      true true (fun _ => .httpError 500)
      [⟨1, 10, 50, EstadoBillete.DISPONIBLE, 1, none⟩]).2.2.1 ⟨1, "S", 3, 0, none⟩ rfl
      (by decide) (by decide)
  · exact (vender_precondiciones 0 (some ⟨1, "S", 10, 0, none⟩) (some 7) false [] none
      true true (fun _ => .httpError 500)
      [⟨1, 10, 50, EstadoBillete.DISPONIBLE, 1, none⟩]).2.2.2.1 ⟨1, "S", 10, 0, none⟩ rfl
      (by decide) (by decide) (by decide) rfl

end Loteria
